import Mathlib

/-!
Verification of vue-easy-google-autocomplete.

Shallow embedding of the two core source files:
the `debounce` utility and the `useGooglePlacesAutocomplete`
composable (script loader, prediction search, place-detail lookup,
reset, and the mount-time API-loading logic).
-/

/-- One autocomplete prediction, as in the source `Prediction` interface:
`{ description, place_id }`. -/
structure Prediction where
  description : String
  place_id : String
  deriving DecidableEq, Repr

/-!
Debounce (src `debounce.ts`).

The JS closure keeps one `timeout` handle.  Each call cancels a pending,
not-yet-fired timer (`clearTimeout`) and schedules a fresh one that
invokes the wrapped function with the call's arguments after `wait` ms.
We embed the closure's behaviour as a run over a timestamped call trace:
`pending` is the scheduled timer `(deadline, args)`; a pending timer
fires when its deadline arrives no later than the next call, otherwise
the next call's `clearTimeout` cancels it; either way a new timer is
scheduled at `call time + wait`; a trailing timer fires after the trace
ends.  The result is the list of argument values that reach the wrapped
function, in firing order.
-/

/-- Trace semantics of one `debounce(func, wait)` wrapper, threading the
pending timer. -/
def debounceRunAux {α : Type} (w : Nat) (pending : Option (Nat × α)) :
    List (Nat × α) → List α
  | [] =>
    match pending with
    | some p => [p.2]
    | none => []
  | c :: rest =>
    match pending with
    | some p =>
      if p.1 ≤ c.1 then
        p.2 :: debounceRunAux w (some (c.1 + w, c.2)) rest
      else
        debounceRunAux w (some (c.1 + w, c.2)) rest
    | none => debounceRunAux w (some (c.1 + w, c.2)) rest

/-- Arguments that reach the wrapped function when the debounced wrapper
is called at the given times with the given arguments. -/
def debounceRun {α : Type} (w : Nat) (calls : List (Nat × α)) : List α :=
  debounceRunAux w none calls

/-- If every next call arrives strictly before the previous timer's
deadline, only the last call's argument fires. -/
lemma debounceRunAux_fast {α : Type} (w : Nat) :
    ∀ (cs : List (Nat × α)) (t : Nat) (a : α),
      List.Chain' (fun p q => q.1 < p.1 + w) ((t, a) :: cs) →
      debounceRunAux w (some (t + w, a)) cs = [(cs.getLastD (t, a)).2]
  | [], _, _, _ => by simp [debounceRunAux]
  | (t', a') :: rest, t, a, h => by
    rw [List.chain'_cons] at h
    have hlt : ¬ t + w ≤ t' := by omega
    simp only [debounceRunAux, hlt, if_false, List.getLastD_cons]
    exact debounceRunAux_fast w rest t' a' h.2

/-- If every next call arrives at or after the previous timer's deadline,
every call's argument fires, in order. -/
lemma debounceRunAux_slow {α : Type} (w : Nat) :
    ∀ (cs : List (Nat × α)) (t : Nat) (a : α),
      List.Chain' (fun p q => p.1 + w ≤ q.1) ((t, a) :: cs) →
      debounceRunAux w (some (t + w, a)) cs = a :: cs.map Prod.snd
  | [], _, _, _ => by simp [debounceRunAux]
  | (t', a') :: rest, t, a, h => by
    rw [List.chain'_cons] at h
    simp only [debounceRunAux, h.1, if_true, List.map]
    rw [debounceRunAux_slow w rest t' a' h.2]

/-- Claim C1: for a nonempty call trace in which each call arrives
strictly sooner than `wait` after the previous one, only the final
call's arguments reach the wrapped function; and for a trace in which
consecutive calls are separated by at least `wait`, each call's
arguments reach the wrapped function independently, in order. -/
theorem claim_C1_debounce {α : Type} (w : Nat) (c : Nat × α) (cs : List (Nat × α)) :
    (List.Chain' (fun p q => q.1 < p.1 + w) (c :: cs) →
      debounceRun w (c :: cs) = [(cs.getLastD c).2]) ∧
    (List.Chain' (fun p q => p.1 + w ≤ q.1) (c :: cs) →
      debounceRun w (c :: cs) = (c :: cs).map Prod.snd) := by
  obtain ⟨t, a⟩ := c
  constructor
  · intro h
    simp only [debounceRun, debounceRunAux]
    exact debounceRunAux_fast w cs t a h
  · intro h
    simp only [debounceRun, debounceRunAux, List.map]
    exact debounceRunAux_slow w cs t a h

/-- Witness for C1 at concrete traces: three calls 0, 50, 90 with wait
100 fire only the last; two calls 0, 100 with wait 100 both fire. -/
theorem claim_C1_debounce_witness :
    debounceRun 100 [((0 : Nat), "a"), (50, "b"), (90, "c")] = ["c"] ∧
    debounceRun 100 [((0 : Nat), "x"), (100, "y")] = ["x", "y"] := by
  constructor
  · have h := (claim_C1_debounce 100 ((0 : Nat), "a") [(50, "b"), (90, "c")]).1
      (by simp [List.chain'_cons])
    simpa using h
  · have h := (claim_C1_debounce 100 ((0 : Nat), "x") [(100, "y")]).2
      (by simp [List.chain'_cons])
    simpa using h

/-!
Coordinator state (src `useGooglePlacesAutocomplete.ts`).

Per-instance reactive state: `predictions` (ref []), `loading`
(ref false), `isGoogleMapsApiLoaded` (ref false), here `isApiLoaded`.
-/

/-- Per-instance coordinator state: the three reactive refs. -/
structure CoordState where
  predictions : List Prediction
  loading : Bool
  isApiLoaded : Bool
  deriving DecidableEq, Repr

/-- Initial per-instance state: `ref([])`, `ref(false)`, `ref(false)`. -/
def initialCoordState : CoordState :=
  { predictions := [], loading := false, isApiLoaded := false }

/-!
The prediction request is the JS object literal
`{ input, ...predictionOptions }`.  We model JS objects as key/value
lists where a later entry overrides an earlier one (spread semantics),
and reading a key takes the last binding.
-/

/-- JS-object field read: the LAST binding of a key wins, as for an
object built by a literal with spreads. -/
def objGet (o : List (String × String)) (k : String) : Option String :=
  match o with
  | [] => none
  | (k', v) :: rest =>
    match objGet rest k with
    | some v' => some v'
    | none => if k' = k then some v else none

/-- The request object `{ input, ...predictionOptions }` sent to
`getPlacePredictions`: the `input` field first, then the caller's
options spread after it. -/
def buildRequest (input : String) (predictionOptions : List (String × String)) :
    List (String × String) :=
  ("input", input) :: predictionOptions

/-- First phase of the debounce-elapsed `fetchPredictions` body, up to the
suspension point at `getPlacePredictions`: guard
`if (!isGoogleMapsApiLoaded.value || !input) return;`, then
`loading.value = true` and the issued request (`none` when no query is
issued). -/
def fetchPredictionsStart (s : CoordState) (input : String)
    (predictionOptions : List (String × String)) :
    CoordState × Option (List (String × String)) :=
  if !s.isApiLoaded || input = "" then (s, none)
  else ({ s with loading := true }, some (buildRequest input predictionOptions))

/-- The `getPlacePredictions` callback:
`predictions.value = results ?? []; loading.value = false;`. -/
def fetchPredictionsCallback (s : CoordState) (results : Option (List Prediction)) :
    CoordState :=
  { s with predictions := results.getD [], loading := false }

/-- Clears predictions: `predictions.value = [];`. -/
def resetPredictions (s : CoordState) : CoordState :=
  { s with predictions := [] }

/-- Claim C2: a debounce-elapsed search with the API loaded and non-empty
input sets `loading` to true, issues exactly one query for the input
merged with the caller options, and the response callback replaces
`predictions` wholesale with the service's list in the service's order
(empty when the service returns null) and sets `loading` back to
false. -/
theorem claim_C2_search_success (s : CoordState) (input : String)
    (opts : List (String × String))
    (h1 : s.isApiLoaded = true) (h2 : input ≠ "") :
    fetchPredictionsStart s input opts =
      ({ s with loading := true }, some (buildRequest input opts)) ∧
    ∀ results : Option (List Prediction),
      fetchPredictionsCallback { s with loading := true } results =
        { s with predictions := results.getD [], loading := false } := by
  constructor
  · simp [fetchPredictionsStart, h1, h2]
  · intro results
    simp [fetchPredictionsCallback]

/-- Witness for C2: the spec scenario where the service returns the two
predictions `a` / `b`; after start and callback the state holds exactly
that ordered pair with `loading` off, and the query was issued. -/
theorem claim_C2_search_success_witness :
    fetchPredictionsStart
        { predictions := [], loading := false, isApiLoaded := true } "123 Main St" [] =
      ({ predictions := [], loading := true, isApiLoaded := true },
        some [("input", "123 Main St")]) ∧
    fetchPredictionsCallback
        { predictions := [], loading := true, isApiLoaded := true }
        (some [⟨"A St", "a"⟩, ⟨"B Ave", "b"⟩]) =
      { predictions := [⟨"A St", "a"⟩, ⟨"B Ave", "b"⟩], loading := false,
        isApiLoaded := true } := by
  have h := claim_C2_search_success
    { predictions := [], loading := false, isApiLoaded := true }
    "123 Main St" [] rfl (by decide)
  exact ⟨by simpa [buildRequest] using h.1,
    by simpa using h.2 (some [⟨"A St", "a"⟩, ⟨"B Ave", "b"⟩])⟩

/-- Claim C3: a debounce-elapsed search with the API not loaded or an
empty input is a no-op: no query is issued, `loading` is never toggled
and `predictions` is left exactly as it was. -/
theorem claim_C3_search_noop (s : CoordState) (input : String)
    (opts : List (String × String))
    (h : s.isApiLoaded = false ∨ input = "") :
    fetchPredictionsStart s input opts = (s, none) := by
  rcases h with h | h <;> simp [fetchPredictionsStart, h]

/-- Witness for C3: empty input on a loaded, populated state changes
nothing and issues no query; unloaded API likewise. -/
theorem claim_C3_search_noop_witness :
    fetchPredictionsStart
        { predictions := [⟨"A St", "a"⟩], loading := false, isApiLoaded := true }
        "" [] =
      ({ predictions := [⟨"A St", "a"⟩], loading := false, isApiLoaded := true },
        none) ∧
    fetchPredictionsStart
        { predictions := [], loading := false, isApiLoaded := false } "x" [] =
      ({ predictions := [], loading := false, isApiLoaded := false }, none) := by
  exact ⟨claim_C3_search_noop _ "" [] (Or.inr rfl),
    claim_C3_search_noop _ "x" [] (Or.inl rfl)⟩

/-- Claim C9: because the request is `{ input, ...predictionOptions }`
with the spread after the `input` field, a caller-supplied `input` key in
`predictionOptions` silently replaces the searched text in the query;
without such a key the searched text is used. -/
theorem claim_C9_input_override (input : String) (opts : List (String × String)) :
    (∀ v, objGet opts "input" = some v →
      objGet (buildRequest input opts) "input" = some v) ∧
    (objGet opts "input" = none →
      objGet (buildRequest input opts) "input" = some input) := by
  constructor
  · intro v hv
    simp [buildRequest, objGet, hv]
  · intro hv
    simp [buildRequest, objGet, hv]

/-- Witness for C9: with `predictionOptions = [("input", "override")]`
the query's `input` field is "override", not the searched text. -/
theorem claim_C9_input_override_witness :
    objGet (buildRequest "typed text" [("input", "override")]) "input" =
      some "override" ∧
    objGet (buildRequest "typed text" []) "input" = some "typed text" := by
  exact ⟨(claim_C9_input_override "typed text" [("input", "override")]).1
      "override" (by decide),
    (claim_C9_input_override "typed text" []).2 (by decide)⟩

/-!
Place details (src `fetchPlaceDetails`).

`if (!isGoogleMapsApiLoaded.value) return;` — the async function
resolves with `undefined` and no lookup is issued.  Otherwise
`placesService.getDetails({ placeId }, (place, status) => ...)` and in
the callback `if (status === OK && place) resolve(place) else
reject(new Error('Place details not found'))`.
-/

/-- The service statuses of `google.maps.places.PlacesServiceStatus`. -/
inductive PlacesServiceStatus where
  | OK
  | ZERO_RESULTS
  | OVER_QUERY_LIMIT
  | REQUEST_DENIED
  | INVALID_REQUEST
  | UNKNOWN_ERROR
  | NOT_FOUND
  deriving DecidableEq, Repr

/-- A resolved place record (`google.maps.places.PlaceResult`); the
fields are opaque to the coordinator. -/
structure PlaceResult where
  place_id : String
  name : String
  formatted_address : String
  deriving DecidableEq, Repr

/-- Outcome of a `fetchPlaceDetails` call: resolves with `undefined`
(`noop`), resolves with a place, or rejects with an error message. -/
inductive DetailsOutcome where
  | noop
  | resolved (place : PlaceResult)
  | rejected (msg : String)
  deriving DecidableEq, Repr

/-- `fetchPlaceDetails(placeId)`, with the external service modelled as a
function from the queried id to the `(place, status)` callback pair.
Returns the promise outcome, the id of the issued lookup (`none` when no
lookup is issued), and the per-instance state afterwards. -/
def fetchPlaceDetails (s : CoordState) (placeId : String)
    (svc : String → Option PlaceResult × PlacesServiceStatus) :
    DetailsOutcome × Option String × CoordState :=
  if !s.isApiLoaded then (DetailsOutcome.noop, none, s)
  else
    match svc placeId with
    | (some place, status) =>
      if status = PlacesServiceStatus.OK then
        (DetailsOutcome.resolved place, some placeId, s)
      else
        (DetailsOutcome.rejected "Place details not found", some placeId, s)
    | (none, _) =>
      (DetailsOutcome.rejected "Place details not found", some placeId, s)

/-- Counterexample to C4: with the API loaded and a service response
whose status is OK but whose place object is null, the call rejects —
the claim says resolution happens exactly when the status is OK. -/
theorem claim_C4_details_counterexample :
    fetchPlaceDetails
        { predictions := [], loading := false, isApiLoaded := true } "xyz"
        (fun _ => (none, PlacesServiceStatus.OK)) =
      (DetailsOutcome.rejected "Place details not found", some "xyz",
        { predictions := [], loading := false, isApiLoaded := true }) := by
  rfl

/-- Claim C4 (amended): with the API loaded, `fetchPlaceDetails` resolves
with a place exactly when the service reports status OK AND supplies a
place object; it rejects with "Place details not found" for every other
response, including every non-OK status (ZERO_RESULTS among them) and an
OK status with a null place; `predictions` and `loading` are unchanged
and exactly one lookup for the given id is issued. -/
theorem claim_C4_details (s : CoordState) (placeId : String)
    (svc : String → Option PlaceResult × PlacesServiceStatus)
    (h : s.isApiLoaded = true) :
    (fetchPlaceDetails s placeId svc).2.2 = s ∧
    (fetchPlaceDetails s placeId svc).2.1 = some placeId ∧
    (∀ p, (fetchPlaceDetails s placeId svc).1 = DetailsOutcome.resolved p ↔
      svc placeId = (some p, PlacesServiceStatus.OK)) ∧
    ((∀ p, svc placeId ≠ (some p, PlacesServiceStatus.OK)) →
      (fetchPlaceDetails s placeId svc).1 =
        DetailsOutcome.rejected "Place details not found") := by
  cases hsvc : svc placeId with
  | mk place? status =>
    cases place? with
    | none =>
      refine ⟨?_, ?_, ?_, ?_⟩ <;> simp [fetchPlaceDetails, h, hsvc]
    | some place =>
      by_cases hOK : status = PlacesServiceStatus.OK
      · subst hOK
        refine ⟨?_, ?_, ?_, ?_⟩
        · simp [fetchPlaceDetails, h, hsvc]
        · simp [fetchPlaceDetails, h, hsvc]
        · intro p
          simp [fetchPlaceDetails, h, hsvc]
        · intro hne
          exact absurd rfl (hne place)
      · refine ⟨?_, ?_, ?_, ?_⟩ <;> simp [fetchPlaceDetails, h, hsvc, hOK]

/-- Witness for C4 (amended) at concrete services: OK with a place
resolves with it; ZERO_RESULTS rejects with the not-found error and
leaves the state unchanged. -/
theorem claim_C4_details_witness :
    (fetchPlaceDetails
        { predictions := [], loading := false, isApiLoaded := true } "xyz"
        (fun _ => (some ⟨"xyz", "X", "1 X St"⟩, PlacesServiceStatus.OK))).1 =
      DetailsOutcome.resolved ⟨"xyz", "X", "1 X St"⟩ ∧
    (fetchPlaceDetails
        { predictions := [⟨"A St", "a"⟩], loading := false, isApiLoaded := true }
        "xyz" (fun _ => (none, PlacesServiceStatus.ZERO_RESULTS))) =
      (DetailsOutcome.rejected "Place details not found", some "xyz",
        { predictions := [⟨"A St", "a"⟩], loading := false, isApiLoaded := true }) := by
  refine ⟨((claim_C4_details _ "xyz" _ rfl).2.2.1 _).mpr rfl, ?_⟩
  have h := claim_C4_details
    { predictions := [⟨"A St", "a"⟩], loading := false, isApiLoaded := true }
    "xyz" (fun _ => (none, PlacesServiceStatus.ZERO_RESULTS)) rfl
  have hrej := h.2.2.2 (by intro p hp; simp at hp)
  have hid := h.2.1
  have hst := h.1
  exact Prod.ext hrej (Prod.ext hid hst)

/-!
Configuration resolution (src `useGooglePlacesAutocomplete` head).

`const debounceTime = options.debounceTime || 300;` and friends: the
`||` default kicks in on every JS-falsy value, so `0` (for a number) and
`""` (for a string) are replaced by the default, while an empty array or
empty object is truthy and kept.
-/

/-- The `AutocompleteOptions` object; every field is optional. -/
structure AutocompleteOptions where
  debounceTime : Option Int
  predictionOptions : Option (List (String × String))
  libraries : Option (List String)
  language : Option String

/-- `options.debounceTime || 300` — `0` is falsy for a JS number. -/
def resolveDebounceTime (o : AutocompleteOptions) : Int :=
  match o.debounceTime with
  | some d => if d = 0 then 300 else d
  | none => 300

/-- `options.predictionOptions || {}`. -/
def resolvePredictionOptions (o : AutocompleteOptions) : List (String × String) :=
  o.predictionOptions.getD []

/-- `options.libraries || ['places']` — an array is always truthy, so an
explicit empty array is kept. -/
def resolveLibraries (o : AutocompleteOptions) : List String :=
  o.libraries.getD ["places"]

/-- `options.language || 'en'` — `""` is falsy for a JS string. -/
def resolveLanguage (o : AutocompleteOptions) : String :=
  match o.language with
  | some l => if l = "" then "en" else l
  | none => "en"

/-- Claim C10: the `||` defaults apply to every falsy value, not only to
absent ones: `debounceTime: 0` yields an effective wait of 300 and an
empty-string language becomes "en", so no choice of public options
configures a zero wait or an empty language. -/
theorem claim_C10_falsy_defaults :
    resolveDebounceTime ⟨some 0, none, none, none⟩ = 300 ∧
    resolveLanguage ⟨none, none, none, some ""⟩ = "en" ∧
    (∀ o : AutocompleteOptions, resolveDebounceTime o ≠ 0) ∧
    (∀ o : AutocompleteOptions, resolveLanguage o ≠ "") := by
  refine ⟨rfl, rfl, ?_, ?_⟩
  · intro o
    unfold resolveDebounceTime
    match o.debounceTime with
    | some d =>
      by_cases hd : d = 0 <;> simp [hd]
    | none => simp
  · intro o
    unfold resolveLanguage
    match o.language with
    | some l =>
      by_cases hl : l = "" <;> simp [hl]
    | none => simp

/-- Witness for C10: the universally quantified parts evaluated at the
concrete falsy options. -/
theorem claim_C10_falsy_defaults_witness :
    resolveDebounceTime ⟨some 0, none, none, none⟩ ≠ 0 ∧
    resolveLanguage ⟨none, none, none, some ""⟩ ≠ "" := by
  exact ⟨claim_C10_falsy_defaults.2.2.1 ⟨some 0, none, none, none⟩,
    claim_C10_falsy_defaults.2.2.2 ⟨none, none, none, some ""⟩⟩

/-!
Script loader (src `loadGoogleMapsApi`).

`let googleMapsApiLoaded = false;` is module-level, process-wide state.
The loader resolves at once when the flag is set; otherwise it creates a
script element with the parameterised URL, `async`/`defer` set, installs
`onload` (set the flag, resolve) and `onerror`
(`reject(new Error('Failed to load Google Maps API'))`), and appends it
to `document.head`.
-/

/-- A script element as the loader configures it. -/
structure ScriptEl where
  src : String
  async : Bool
  defer : Bool
  deriving DecidableEq, Repr

/-- Process-wide loader state: the module-level flag and the scripts
appended to `document.head`, in insertion order. -/
structure LoaderState where
  googleMapsApiLoaded : Bool
  scripts : List ScriptEl
  deriving DecidableEq, Repr

/-- The URL template
`https://maps.googleapis.com/maps/api/js?key=...&libraries=...&language=...`
with the libraries comma-joined. -/
def scriptSrc (apiKey : String) (libraries : List String) (language : String) :
    String :=
  "https://maps.googleapis.com/maps/api/js?key=" ++ apiKey ++
    "&libraries=" ++ String.intercalate "," libraries ++
    "&language=" ++ language

/-- The script element the loader builds: parameterised src, `async` and
`defer` both set. -/
def mkScript (apiKey : String) (libraries : List String) (language : String) :
    ScriptEl :=
  { src := scriptSrc apiKey libraries language, async := true, defer := true }

/-- What one `loadGoogleMapsApi` call does before any load/error event:
either the promise is already resolved, or a script was inserted and the
promise is pending on it. -/
inductive LoadRequestResult where
  | immediate
  | inserted (s : ScriptEl)
  deriving DecidableEq, Repr

/-- Synchronous part of `loadGoogleMapsApi(apiKey, libraries, language)`:
short-circuit on the flag, otherwise append the script element. -/
def loadGoogleMapsApi (st : LoaderState) (apiKey : String)
    (libraries : List String) (language : String) :
    LoaderState × LoadRequestResult :=
  if st.googleMapsApiLoaded then (st, LoadRequestResult.immediate)
  else
    ({ st with scripts := st.scripts ++ [mkScript apiKey libraries language] },
      LoadRequestResult.inserted (mkScript apiKey libraries language))

/-- Outcome of a pending load promise. -/
inductive PromiseOutcome where
  | resolved
  | rejected (msg : String)
  deriving DecidableEq, Repr

/-- The `script.onload` handler: set the process-wide flag, resolve. -/
def scriptOnload (st : LoaderState) : LoaderState × PromiseOutcome :=
  ({ st with googleMapsApiLoaded := true }, PromiseOutcome.resolved)

/-- The `script.onerror` handler: reject, flag untouched. -/
def scriptOnerror (st : LoaderState) : LoaderState × PromiseOutcome :=
  (st, PromiseOutcome.rejected "Failed to load Google Maps API")

/-- Claim C5: with the flag already set the loader resolves immediately
and inserts nothing; with the flag unset it inserts exactly one script
whose URL carries the key, the comma-joined libraries and the language,
and two calls that both run before any load event each insert their own
script; the load event sets the flag and resolves, the error event
rejects with the failed-to-load error. -/
theorem claim_C5_loader (st : LoaderState) (apiKey : String)
    (libraries : List String) (language : String) :
    (st.googleMapsApiLoaded = true →
      loadGoogleMapsApi st apiKey libraries language =
        (st, LoadRequestResult.immediate)) ∧
    (st.googleMapsApiLoaded = false →
      loadGoogleMapsApi st apiKey libraries language =
        ({ st with
            scripts := st.scripts ++ [mkScript apiKey libraries language] },
          LoadRequestResult.inserted (mkScript apiKey libraries language)) ∧
      (loadGoogleMapsApi
          (loadGoogleMapsApi st apiKey libraries language).1
          apiKey libraries language).1.scripts =
        st.scripts ++
          [mkScript apiKey libraries language,
            mkScript apiKey libraries language]) ∧
    scriptOnload st =
      ({ st with googleMapsApiLoaded := true }, PromiseOutcome.resolved) ∧
    scriptOnerror st =
      (st, PromiseOutcome.rejected "Failed to load Google Maps API") := by
  refine ⟨?_, ?_, rfl, rfl⟩
  · intro h
    simp [loadGoogleMapsApi, h]
  · intro h
    constructor
    · simp [loadGoogleMapsApi, h]
    · simp [loadGoogleMapsApi, h]

/-- Witness for C5: a set flag short-circuits; an unset flag inserts the
parameterised script, and an overlapping second call inserts a second
copy. -/
theorem claim_C5_loader_witness :
    loadGoogleMapsApi { googleMapsApiLoaded := true, scripts := [] } "K"
        ["places"] "en" =
      ({ googleMapsApiLoaded := true, scripts := [] },
        LoadRequestResult.immediate) ∧
    loadGoogleMapsApi { googleMapsApiLoaded := false, scripts := [] } "K"
        ["places", "geometry"] "pt-BR" =
      ({ googleMapsApiLoaded := false,
          scripts :=
            [⟨"https://maps.googleapis.com/maps/api/js?key=K&libraries=places,geometry&language=pt-BR",
              true, true⟩] },
        LoadRequestResult.inserted
          ⟨"https://maps.googleapis.com/maps/api/js?key=K&libraries=places,geometry&language=pt-BR",
            true, true⟩) ∧
    (loadGoogleMapsApi
        (loadGoogleMapsApi { googleMapsApiLoaded := false, scripts := [] } "K"
          ["places"] "en").1 "K" ["places"] "en").1.scripts =
      [mkScript "K" ["places"] "en", mkScript "K" ["places"] "en"] := by
  have h1 := (claim_C5_loader { googleMapsApiLoaded := true, scripts := [] } "K"
    ["places"] "en").1 rfl
  have h2 := (claim_C5_loader { googleMapsApiLoaded := false, scripts := [] } "K"
    ["places", "geometry"] "pt-BR").2.1 rfl
  have h3 := (claim_C5_loader { googleMapsApiLoaded := false, scripts := [] } "K"
    ["places"] "en").2.1 rfl
  refine ⟨h1, ?_, by simpa using h3.2⟩
  have : mkScript "K" ["places", "geometry"] "pt-BR" =
      ⟨"https://maps.googleapis.com/maps/api/js?key=K&libraries=places,geometry&language=pt-BR",
        true, true⟩ := by decide
  simpa [this] using h2.1

/-!
Whole-program state and events.

One process-wide loader state plus one coordinator instance; an event is
any state-mutating operation of the source.  `onMounted` is split into
its three outcomes: the capability is already present
(`mountApiPresent`), `loadGoogleMapsApi` resolved (`mountLoadSuccess` —
the only two places where `isGoogleMapsApiLoaded.value = true` is
executed), or it rejected, which only logs (`mountLoadFailure`).
-/

/-- Process-wide loader state plus one coordinator instance. -/
structure GState where
  loader : LoaderState
  inst : CoordState

/-- Every state-mutating operation of the source. -/
inductive Ev where
  | loadRequest (apiKey : String) (libraries : List String) (language : String)
  | scriptLoad
  | scriptError
  | mountApiPresent
  | mountLoadSuccess
  | mountLoadFailure
  | searchStart (input : String) (opts : List (String × String))
  | searchCallback (results : Option (List Prediction))
  | detailsCall (placeId : String)
      (svc : String → Option PlaceResult × PlacesServiceStatus)
  | reset

/-- Small-step semantics: apply one operation to the program state. -/
def step (g : GState) : Ev → GState
  | Ev.loadRequest k libs lang =>
    { g with loader := (loadGoogleMapsApi g.loader k libs lang).1 }
  | Ev.scriptLoad => { g with loader := (scriptOnload g.loader).1 }
  | Ev.scriptError => { g with loader := (scriptOnerror g.loader).1 }
  | Ev.mountApiPresent => { g with inst := { g.inst with isApiLoaded := true } }
  | Ev.mountLoadSuccess => { g with inst := { g.inst with isApiLoaded := true } }
  | Ev.mountLoadFailure => g
  | Ev.searchStart input opts =>
    { g with inst := (fetchPredictionsStart g.inst input opts).1 }
  | Ev.searchCallback results =>
    { g with inst := fetchPredictionsCallback g.inst results }
  | Ev.detailsCall pid svc =>
    { g with inst := (fetchPlaceDetails g.inst pid svc).2.2 }
  | Ev.reset => { g with inst := resetPredictions g.inst }

/-- Program start: module-level `googleMapsApiLoaded = false`, no script
in the document, fresh refs. -/
def initialGState : GState :=
  { loader := { googleMapsApiLoaded := false, scripts := [] },
    inst := initialCoordState }

/-- `fetchPredictionsStart` never writes `isApiLoaded`. -/
lemma fetchPredictionsStart_isApiLoaded (s : CoordState) (input : String)
    (opts : List (String × String)) :
    (fetchPredictionsStart s input opts).1.isApiLoaded = s.isApiLoaded := by
  unfold fetchPredictionsStart
  split <;> rfl

/-- `fetchPlaceDetails` never writes the per-instance state at all. -/
lemma fetchPlaceDetails_state (s : CoordState) (placeId : String)
    (svc : String → Option PlaceResult × PlacesServiceStatus) :
    (fetchPlaceDetails s placeId svc).2.2 = s := by
  unfold fetchPlaceDetails
  rcases hsvc : svc placeId with ⟨place?, status⟩
  by_cases h : s.isApiLoaded <;>
    cases place? <;>
      by_cases hOK : status = PlacesServiceStatus.OK <;>
        simp [h, hOK, hsvc]

/-- One step never clears the process-wide flag. -/
lemma step_flag_mono (g : GState) (e : Ev)
    (h : g.loader.googleMapsApiLoaded = true) :
    (step g e).loader.googleMapsApiLoaded = true := by
  cases e <;> simp [step, loadGoogleMapsApi, scriptOnload, scriptOnerror, h]

/-- The process-wide flag is set only by the script load event. -/
lemma step_flag_setter (g : GState) (e : Ev)
    (h : (step g e).loader.googleMapsApiLoaded = true) :
    g.loader.googleMapsApiLoaded = true ∨ e = Ev.scriptLoad := by
  cases e with
  | loadRequest k libs lang =>
    by_cases hf : g.loader.googleMapsApiLoaded = true
    · exact Or.inl hf
    · have hf' : g.loader.googleMapsApiLoaded = false := by
        simpa using hf
      simp [step, loadGoogleMapsApi, hf'] at h
  | scriptLoad => exact Or.inr rfl
  | scriptError => exact Or.inl (by simpa [step, scriptOnerror] using h)
  | _ => exact Or.inl (by simpa [step] using h)

/-- One step never clears a coordinator instance's `isApiLoaded`. -/
lemma step_inst_mono (g : GState) (e : Ev) (h : g.inst.isApiLoaded = true) :
    (step g e).inst.isApiLoaded = true := by
  cases e <;>
    simp [step, fetchPredictionsStart_isApiLoaded, fetchPlaceDetails_state,
      fetchPredictionsCallback, resetPredictions, h]

/-- `isApiLoaded` is set only by the two successful mount outcomes. -/
lemma step_inst_setter (g : GState) (e : Ev)
    (h : (step g e).inst.isApiLoaded = true) :
    g.inst.isApiLoaded = true ∨ e = Ev.mountApiPresent ∨
      e = Ev.mountLoadSuccess := by
  cases e with
  | mountApiPresent => exact Or.inr (Or.inl rfl)
  | mountLoadSuccess => exact Or.inr (Or.inr rfl)
  | searchStart input opts =>
    exact Or.inl (by simpa [step, fetchPredictionsStart_isApiLoaded] using h)
  | detailsCall pid svc =>
    exact Or.inl (by simpa [step, fetchPlaceDetails_state] using h)
  | searchCallback results =>
    exact Or.inl (by simpa [step, fetchPredictionsCallback] using h)
  | reset => exact Or.inl (by simpa [step, resetPredictions] using h)
  | _ => exact Or.inl (by simpa [step] using h)

/-- Over a whole trace, a set flag means the script load event occurred. -/
lemma foldl_flag_setter :
    ∀ (tr : List Ev) (g : GState),
      (tr.foldl step g).loader.googleMapsApiLoaded = true →
      g.loader.googleMapsApiLoaded = true ∨ Ev.scriptLoad ∈ tr
  | [], _, h => Or.inl h
  | e :: tr, g, h => by
    rcases foldl_flag_setter tr (step g e) (by simpa using h) with h' | h'
    · rcases step_flag_setter g e h' with h'' | h''
      · exact Or.inl h''
      · exact Or.inr (by simp [h''])
    · exact Or.inr (by simp [h'])

/-- Claim C6: the process-wide flag starts unset, is never cleared by any
operation, and becomes set only through the script load event (so a set
flag after any trace from program start means a successful load
happened); an instance's `isApiLoaded` starts false, is never cleared by
any operation, and becomes true only through the two successful mount
outcomes. -/
theorem claim_C6_flags_monotone :
    initialGState.loader.googleMapsApiLoaded = false ∧
    initialGState.inst.isApiLoaded = false ∧
    (∀ (g : GState) (e : Ev), g.loader.googleMapsApiLoaded = true →
      (step g e).loader.googleMapsApiLoaded = true) ∧
    (∀ (g : GState) (e : Ev), (step g e).loader.googleMapsApiLoaded = true →
      g.loader.googleMapsApiLoaded = true ∨ e = Ev.scriptLoad) ∧
    (∀ (g : GState) (e : Ev), g.inst.isApiLoaded = true →
      (step g e).inst.isApiLoaded = true) ∧
    (∀ (g : GState) (e : Ev), (step g e).inst.isApiLoaded = true →
      g.inst.isApiLoaded = true ∨ e = Ev.mountApiPresent ∨
        e = Ev.mountLoadSuccess) ∧
    (∀ tr : List Ev,
      (tr.foldl step initialGState).loader.googleMapsApiLoaded = true →
      Ev.scriptLoad ∈ tr) := by
  refine ⟨rfl, rfl, step_flag_mono, step_flag_setter, step_inst_mono,
    step_inst_setter, ?_⟩
  intro tr h
  rcases foldl_flag_setter tr initialGState h with h' | h'
  · exact absurd h' (by simp [initialGState])
  · exact h'

/-- A program state in which both flags are already set, for concrete
instantiations. -/
def gBothLoaded : GState :=
  { loader := { googleMapsApiLoaded := true, scripts := [] },
    inst := { predictions := [], loading := false, isApiLoaded := true } }

/-- Witness for C6: the monotone parts at a state with both flags set,
the setter parts at the events that set them, and the trace part at the
one-event load trace. -/
theorem claim_C6_flags_monotone_witness :
    (step gBothLoaded Ev.reset).loader.googleMapsApiLoaded = true ∧
    (step gBothLoaded Ev.reset).inst.isApiLoaded = true ∧
    (initialGState.loader.googleMapsApiLoaded = true ∨
      Ev.scriptLoad = Ev.scriptLoad) ∧
    (initialGState.inst.isApiLoaded = true ∨
      Ev.mountApiPresent = Ev.mountApiPresent ∨
      Ev.mountApiPresent = Ev.mountLoadSuccess) ∧
    Ev.scriptLoad ∈ [Ev.scriptLoad] := by
  refine ⟨claim_C6_flags_monotone.2.2.1 _ Ev.reset rfl,
    claim_C6_flags_monotone.2.2.2.2.1 _ Ev.reset rfl,
    claim_C6_flags_monotone.2.2.2.1 initialGState Ev.scriptLoad rfl,
    claim_C6_flags_monotone.2.2.2.2.2.1 initialGState Ev.mountApiPresent rfl,
    claim_C6_flags_monotone.2.2.2.2.2.2 [Ev.scriptLoad] rfl⟩

/-- The operations available after a failed mount: user-driven search,
detail and reset calls, and the failure outcome itself.  A search
callback is excluded because a search that issues no query installs no
callback. -/
def postFailureEv (e : Ev) : Prop :=
  (∃ input opts, e = Ev.searchStart input opts) ∨
    (∃ placeId svc, e = Ev.detailsCall placeId svc) ∨
    e = Ev.reset ∨ e = Ev.mountLoadFailure

/-- A post-failure operation keeps `isApiLoaded` false and empty
predictions empty. -/
lemma postFailure_step (g : GState) (e : Ev) (he : postFailureEv e)
    (h1 : g.inst.isApiLoaded = false) (h2 : g.inst.predictions = []) :
    (step g e).inst.isApiLoaded = false ∧
      (step g e).inst.predictions = [] := by
  rcases he with ⟨input, opts, rfl⟩ | ⟨pid, svc, rfl⟩ | rfl | rfl
  · simp [step, fetchPredictionsStart, h1, h2]
  · simp [step, fetchPlaceDetails, h1, h2]
  · simp [step, resetPredictions, h1]
  · exact ⟨h1, h2⟩

/-- Closure of the post-failure invariant over whole traces. -/
lemma postFailure_trace :
    ∀ (tr : List Ev) (g : GState), (∀ e ∈ tr, postFailureEv e) →
      g.inst.isApiLoaded = false → g.inst.predictions = [] →
      (tr.foldl step g).inst.isApiLoaded = false ∧
        (tr.foldl step g).inst.predictions = []
  | [], _, _, h1, h2 => ⟨h1, h2⟩
  | e :: tr, g, hall, h1, h2 => by
    have hstep := postFailure_step g e (hall e (by simp)) h1 h2
    simpa using postFailure_trace tr (step g e)
      (fun e' he' => hall e' (by simp [he'])) hstep.1 hstep.2

/-- Claim C7: when the script load fails, `isApiLoaded` stays false;
from then on every search is a no-op (no query, no state change), every
`fetchPlaceDetails` resolves to undefined without issuing a lookup, and
over any trace of such calls `isApiLoaded` stays false and the (empty)
predictions stay empty. -/
theorem claim_C7_load_failure (s : CoordState) (h : s.isApiLoaded = false) :
    (∀ (g : GState), g.inst = s → step g Ev.mountLoadFailure = g) ∧
    (∀ input opts, fetchPredictionsStart s input opts = (s, none)) ∧
    (∀ placeId svc, fetchPlaceDetails s placeId svc =
      (DetailsOutcome.noop, none, s)) ∧
    (∀ (g : GState) (tr : List Ev), g.inst = s → s.predictions = [] →
      (∀ e ∈ tr, postFailureEv e) →
      (tr.foldl step g).inst.isApiLoaded = false ∧
        (tr.foldl step g).inst.predictions = []) := by
  refine ⟨fun g _ => rfl, ?_, ?_, ?_⟩
  · intro input opts
    simp [fetchPredictionsStart, h]
  · intro placeId svc
    simp [fetchPlaceDetails, h]
  · intro g tr hg hp hall
    exact postFailure_trace tr g hall (by simp [hg, h]) (by simp [hg, hp])

/-- Witness for C7: from the initial (never-loaded) instance, a concrete
search, a concrete detail call, and a three-event post-failure trace all
leave the instance unloaded with empty predictions. -/
theorem claim_C7_load_failure_witness :
    fetchPredictionsStart initialCoordState "123 Main" [] =
      (initialCoordState, none) ∧
    fetchPlaceDetails initialCoordState "xyz"
        (fun _ => (none, PlacesServiceStatus.NOT_FOUND)) =
      (DetailsOutcome.noop, none, initialCoordState) ∧
    (([Ev.mountLoadFailure, Ev.searchStart "a" [], Ev.reset].foldl step
        initialGState).inst.isApiLoaded = false ∧
      ([Ev.mountLoadFailure, Ev.searchStart "a" [], Ev.reset].foldl step
        initialGState).inst.predictions = []) := by
  have h := claim_C7_load_failure initialCoordState rfl
  refine ⟨h.2.1 "123 Main" [], h.2.2.1 "xyz" _, ?_⟩
  refine h.2.2.2 initialGState _ rfl rfl ?_
  intro e he
  simp only [List.mem_cons, List.not_mem_nil, or_false] at he
  rcases he with rfl | rfl | rfl
  · exact Or.inr (Or.inr (Or.inr rfl))
  · exact Or.inl ⟨"a", [], rfl⟩
  · exact Or.inr (Or.inr (Or.inl rfl))

/-- Claim C8: `resetPredictions` empties `predictions` and changes
nothing else: `loading` and `isApiLoaded` keep their values and the
process-wide loader state is untouched. -/
theorem claim_C8_reset_frame (s : CoordState) :
    (resetPredictions s).predictions = [] ∧
    (resetPredictions s).loading = s.loading ∧
    (resetPredictions s).isApiLoaded = s.isApiLoaded ∧
    ∀ g : GState, (step g Ev.reset).loader = g.loader :=
  ⟨rfl, rfl, rfl, fun _ => rfl⟩
